import Mathlib

/-!
Shallow embedding of the lottery slot-inventory core (scanner utilities,
barcode validation, inventory store, slot navigation) and proofs about it.

Strings are modelled as Lean `String` values; all character-level operations
are expressed through the underlying `List Char` so that the JavaScript
string primitives (`replace(/[^0-9]/g,'')`, `substring`, `slice`, `trim`,
`length`) have direct, executable counterparts.  Wall-clock instants
(`new Date()` / ISO strings) are modelled by an explicit `Instant` record
carrying a calendar-day index and an intra-day offset; `toDateString`
equality between two dates is day equality.  Every store operation that
reads the clock takes the current `Instant` as an explicit argument; the
global zustand store is passed around as an explicit `InventoryState`.
-/

/-- Characters removed by JavaScript `String.prototype.trim` that can occur
in keyboard-wedge input (space, tab, line feed, carriage return, vertical
tab, form feed, no-break space, BOM). -/
def isJsWhitespace (c : Char) : Bool :=
  c == ' ' || c == '\t' || c == '\n' || c == '\r' ||
  c == '\x0b' || c == '\x0c' || c == '\u00A0' || c == '\uFEFF'

/-- Embedding of JavaScript `s.trim()`: drop whitespace from both ends. -/
def jsTrim (s : String) : String :=
  ⟨((s.data.dropWhile isJsWhitespace).reverse.dropWhile isJsWhitespace).reverse⟩

/-- Embedding of `s.replace(/[^0-9]/g, '')`: keep only ASCII digits. -/
def cleanDigits (s : String) : String :=
  ⟨s.data.filter Char.isDigit⟩

/-- Embedding of `s.substring(0, n)` (also `s.slice(0, n)`). -/
def jsTake (s : String) (n : Nat) : String :=
  ⟨s.data.take n⟩

/-- Embedding of `s.slice(-n)` for the uses in the source, which are always
guarded by `n ≤ s.length`: the last `n` characters. -/
def jsTakeLast (s : String) (n : Nat) : String :=
  ⟨s.data.drop (s.data.length - n)⟩

/-- Embedding of JavaScript `s.length`. -/
def strLen (s : String) : Nat :=
  s.data.length

/-- Embedding of the regular-expression test `/^\d+$/.test(s)`:
non-empty and all ASCII digits. -/
def allDigitsTest (s : String) : Bool :=
  !s.data.isEmpty && s.data.all Char.isDigit

/-- Embedding of `extractBarcodeIdentifier` from `src/utils/scannerUtils.ts`:
clean the raw input to digits; with at least 24 digits return the first 14
of the last 24; with more than 14 return the last 14; otherwise return the
digits unchanged. -/
def extractBarcodeIdentifier (rawInput : String) : String :=
  let allDigits := cleanDigits rawInput
  if 24 ≤ strLen allDigits then
    let last24Digits := jsTakeLast allDigits 24
    jsTake last24Digits 14
  else if 14 < strLen allDigits then
    jsTakeLast allDigits 14
  else
    allDigits

/-- Reference extraction algorithm, written from the specification's words
(§4.1): remove every non-digit preserving order; if at least 24 digits
remain, take the last 24 and then the first 14 of that window; else if more
than 14 remain, take the last 14; else return the digits unchanged.  "Last
`n`" is expressed independently of the source, through `reverse`. -/
def extractIdentifierRef (s : String) : List Char :=
  let digits := s.data.filter Char.isDigit
  if 24 ≤ digits.length then
    ((digits.reverse.take 24).reverse).take 14
  else if 14 < digits.length then
    (digits.reverse.take 14).reverse
  else
    digits

/-- A wall-clock instant, the model of a JavaScript `Date` / ISO timestamp
string: a calendar-day index plus an offset within the day.  Two instants
print to the same `toDateString` exactly when their `day` fields agree. -/
structure Instant where
  day : Nat
  ms : Nat
deriving DecidableEq, Repr

/-- Model of `new Date(a).toDateString() === new Date(b).toDateString()`
(and of the `getDate`/`getMonth`/`getFullYear` triple comparison in
`isToday`): calendar-day equality. -/
def sameDay (a b : Instant) : Bool :=
  a.day == b.day

/-- Model of `Date.prototype.toISOString` for building the `SoldOutPack`
id string: any injective rendering of the instant. -/
def instantToString (i : Instant) : String :=
  toString i.day ++ "T" ++ toString i.ms

/-- Slot status values `'empty' | 'scanned' | 'pending'` used by the app. -/
inductive SlotStatus where
  | empty
  | scanned
  | pending
deriving DecidableEq, Repr

/-- One dispenser slot, from `types/inventory` as used by
`src/store/inventoryStore.ts`. -/
structure InventorySlot where
  id : Nat
  status : SlotStatus
  barcode : Option String
  timestamp : Option Instant
  gamepackNumber : Option String
  soldOut : Bool
deriving DecidableEq, Repr

/-- One sold-out-pack ledger record, from `types/inventory` as built by
`markAsSoldOut`. -/
structure SoldOutPack where
  id : String
  gamepackNumber : String
  gameName : String
  price : String
  type : String
  soldOutDate : Instant
  slotId : Nat
deriving DecidableEq, Repr

/-- A game-catalog entry `{ name, price, type }`. -/
structure GameInfo where
  name : String
  price : String
  type : String
deriving DecidableEq, Repr

/-- The static `gameData` catalog from `src/store/inventoryStore.ts`,
keyed by the first 5 digits of a gamepack number. -/
def gameData : List (String × GameInfo) :=
  [("12345", ⟨"Lucky 7s", "$5", "Scratch-off"⟩),
   ("23456", ⟨"Gold Rush", "$10", "Scratch-off"⟩),
   ("34567", ⟨"Mega Millions", "$20", "Scratch-off"⟩),
   ("45678", ⟨"Cash Explosion", "$30", "Scratch-off"⟩),
   ("56789", ⟨"Diamond Dazzler", "$2", "Scratch-off"⟩)]

/-- The `gameData['default']` fallback entry. -/
def defaultGameInfo : GameInfo :=
  ⟨"Unknown Game", "N/A", "Scratch-off"⟩

/-- Embedding of `getGameInfo`: look the first 5 characters of the gamepack
number up in the catalog, falling back to the default entry.  (The literal
`'default'` key of the source record is unreachable through a 5-character
lookup key and is therefore modelled as the fallback alone.) -/
def getGameInfo (gamepackNumber : String) : GameInfo :=
  let gameKey := jsTake gamepackNumber 5
  match gameData.find? (fun e => e.1 == gameKey) with
  | some e => e.2
  | none => defaultGameInfo

/-- The store state owned by `useInventoryStore`: the slot collection, the
currently selected slot and the sold-out-pack ledger. -/
structure InventoryState where
  slots : List InventorySlot
  selectedSlot : Option Nat
  soldOutPacks : List SoldOutPack
deriving DecidableEq, Repr

/-- Embedding of `initializeSlots` (the name is spelled `initSlots` here):
populate the fixed 20-slot collection, ids 1..20, all empty. -/
def initSlots (st : InventoryState) : InventoryState :=
  { st with
    slots := (List.range 20).map (fun i =>
      ⟨i + 1, SlotStatus.empty, none, none, none, false⟩) }

/-- Embedding of `updateSlot(id, barcode)` with the clock made explicit:
derive the gamepack number (first 11 characters, or the whole string when
shorter), then rewrite the matching slot to a freshly scanned one. -/
def updateSlot (id : Nat) (barcode : String) (now : Instant)
    (st : InventoryState) : InventoryState :=
  let gamepackNumber := if 11 ≤ strLen barcode then jsTake barcode 11 else barcode
  { st with
    slots := st.slots.map (fun slot =>
      if slot.id == id then
        { slot with
          status := SlotStatus.scanned
          barcode := some barcode
          gamepackNumber := some gamepackNumber
          soldOut := false
          timestamp := some now }
      else slot) }

/-- Embedding of `clearSlot(id)`: reset the matching slot to empty with all
fields nulled. -/
def clearSlot (id : Nat) (st : InventoryState) : InventoryState :=
  { st with
    slots := st.slots.map (fun slot =>
      if slot.id == id then
        { slot with
          status := SlotStatus.empty
          barcode := none
          gamepackNumber := none
          soldOut := false
          timestamp := none }
      else slot) }

/-- The 14-character sentinel barcode written by `markAsEmpty`. -/
def emptyBarcodeSentinel : String := "00000000000000"

/-- The 11-character sentinel gamepack number for an explicitly empty slot. -/
def emptyGamepackSentinel : String := "00000000000"

/-- Embedding of `markAsEmpty(id)`: write the sentinel barcode and gamepack
and a fresh timestamp into the matching slot.  The `soldOut` field is not
part of the update and is inherited from the previous slot value. -/
def markAsEmpty (id : Nat) (now : Instant) (st : InventoryState) :
    InventoryState :=
  { st with
    slots := st.slots.map (fun slot =>
      if slot.id == id then
        { slot with
          status := SlotStatus.empty
          barcode := some emptyBarcodeSentinel
          gamepackNumber := some emptyGamepackSentinel
          timestamp := some now }
      else slot) }

/-- The per-slot update inside `markAsSoldOut`: flag the matching slot as
sold out. -/
def markSoldOutFlag (id : Nat) (s : InventorySlot) : InventorySlot :=
  if s.id == id then { s with soldOut := true } else s

/-- The ledger record `markAsSoldOut` appends for gamepack `g` at `now` in
slot `id`. -/
def newSoldOutPack (g : String) (now : Instant) (id : Nat) : SoldOutPack :=
  ⟨g ++ "-" ++ instantToString now, g, (getGameInfo g).name,
    (getGameInfo g).price, (getGameInfo g).type, now, id⟩

/-- Embedding of `markAsSoldOut(id)`: when the slot exists and its gamepack
number is truthy and not the sentinel, set `soldOut` on the matching slot
and append one ledger record built from the catalog; otherwise leave the
state untouched. -/
def markAsSoldOut (id : Nat) (now : Instant) (st : InventoryState) :
    InventoryState :=
  match st.slots.find? (fun s => s.id == id) with
  | none => st
  | some slot =>
    match slot.gamepackNumber with
    | none => st
    | some g =>
      if g ≠ "" ∧ g ≠ emptyGamepackSentinel then
        { st with
          slots := st.slots.map (markSoldOutFlag id)
          soldOutPacks := st.soldOutPacks ++ [newSoldOutPack g now id] }
      else st

/-- Embedding of `getPreviousGamepack(slotId)`: `null` when the slot is
missing, its barcode is falsy, or it carries the sentinel gamepack;
otherwise its (truthy) gamepack number. -/
def getPreviousGamepack (slotId : Nat) (slots : List InventorySlot) :
    Option String :=
  match slots.find? (fun s => s.id == slotId) with
  | none => none
  | some slot =>
    match slot.barcode with
    | none => none
    | some b =>
      if b = "" then none
      else if slot.gamepackNumber = some emptyGamepackSentinel then none
      else
        match slot.gamepackNumber with
        | none => none
        | some g => if g = "" then none else some g

/-- The per-slot test inside `checkGamepackUniqueness`: the slot has a
timestamp, carries exactly this gamepack, the timestamp is from today and
the slot is not sold out. -/
def activeGamepackToday (gamepack : String) (now : Instant)
    (slot : InventorySlot) : Bool :=
  match slot.timestamp, slot.gamepackNumber with
  | some ts, some g =>
    if g ≠ gamepack then false else sameDay ts now && !slot.soldOut
  | _, _ => false

/-- Embedding of `checkGamepackUniqueness(gamepack)` with the clock made
explicit: `true` for the sentinel; otherwise `true` exactly when no slot
carries this gamepack with a timestamp from today and `soldOut` false. -/
def checkGamepackUniqueness (gamepack : String) (now : Instant)
    (slots : List InventorySlot) : Bool :=
  if gamepack = emptyGamepackSentinel then true
  else
    !(slots.any (activeGamepackToday gamepack now))

/-- The `ValidationResult` record returned by `validateBarcode`.  Optional
fields that the source leaves absent are `none` / `false` here. -/
structure ValidationResult where
  isValid : Bool
  message : Option String
  requiresConfirmation : Bool
  previousGamepack : Option String
deriving DecidableEq, Repr

/-- The unconditional-accept result `{ isValid: true }`. -/
def acceptResult : ValidationResult :=
  ⟨true, none, false, none⟩

/-- The cross-slot duplicate rejection built at the end of
`validateBarcode`. -/
def duplicateReject (gamepackNumber : String) : ValidationResult :=
  ⟨false,
    some s!"This gamepack ({gamepackNumber}) is already active in another slot today.",
    false, none⟩

/-- The confirmation request built by `validateBarcode` when a different
pack already occupies the slot. -/
def confirmationRequest (previousGamepack : String) (slotId : Nat) :
    ValidationResult :=
  ⟨false,
    some s!"Was the previous pack ({previousGamepack}) in Slot {slotId} completely sold out?",
    true, some previousGamepack⟩

/-- The fall-through tail of `validateBarcode`: the uniqueness check and
the final accept.  Factored out because the source reaches this point both
when no previous gamepack exists and when the confirmation condition is
false. -/
def uniquenessStep (gamepackNumber : String) (now : Instant)
    (st : InventoryState) : ValidationResult :=
  if !(checkGamepackUniqueness gamepackNumber now st.slots) then
    duplicateReject gamepackNumber
  else
    acceptResult

/-- Embedding of `validateBarcode` from `src/utils/barcodeValidation.ts`,
with the global store snapshot and the clock made explicit arguments. -/
def validateBarcode (barcode : String) (slotId : Nat) (now : Instant)
    (st : InventoryState) : ValidationResult :=
  if (jsTrim barcode).data.isEmpty then
    ⟨false, some "Please enter a barcode", false, none⟩
  else if strLen barcode < 14 then
    ⟨false, some "Barcode must be at least 14 digits", false, none⟩
  else if !(allDigitsTest barcode) then
    ⟨false, some "Barcode must contain only numbers", false, none⟩
  else
    let gamepackNumber := jsTake barcode 11
    if gamepackNumber = emptyGamepackSentinel then
      acceptResult
    else
      match getPreviousGamepack slotId st.slots with
      | some previousGamepack =>
        if previousGamepack ≠ "" ∧ previousGamepack ≠ emptyGamepackSentinel ∧
            previousGamepack ≠ gamepackNumber then
          confirmationRequest previousGamepack slotId
        else
          uniquenessStep gamepackNumber now st
      | none => uniquenessStep gamepackNumber now st

/-- Embedding of `findNextAvailableSlot` from `src/app/_layout.tsx`: first
pending slot, else first untouched slot (no barcode, empty status), else
first non-scanned slot, else slot 1. -/
def findNextAvailableSlot (slots : List InventorySlot) : Nat :=
  match slots.find? (fun slot => decide (slot.status = SlotStatus.pending)) with
  | some slot => slot.id
  | none =>
    match slots.find? (fun slot =>
        decide (slot.barcode = none ∧ slot.status = SlotStatus.empty)) with
    | some slot => slot.id
    | none =>
      match slots.find? (fun slot => decide (slot.status ≠ SlotStatus.scanned)) with
      | some slot => slot.id
      | none => 1

/-- Reference navigator policy, written from the specification's words
(§4.4): the strict priority is expressed by filtering each candidate class
and taking the head of the filtered list. -/
def nextSlotRef (slots : List InventorySlot) : Nat :=
  match (slots.filter (fun slot => decide (slot.status = SlotStatus.pending))).head? with
  | some slot => slot.id
  | none =>
    match (slots.filter (fun slot =>
        decide (slot.barcode = none ∧ slot.status = SlotStatus.empty))).head? with
    | some slot => slot.id
    | none =>
      match (slots.filter (fun slot =>
          decide (slot.status ≠ SlotStatus.scanned))).head? with
      | some slot => slot.id
      | none => 1

/-- Truthiness of an optional string, as JavaScript conditionals see it. -/
def jsTruthyOptStr (o : Option String) : Bool :=
  match o with
  | some s => !s.data.isEmpty
  | none => false

/-- Observable outcome of one `handleSubmitScan` call in
`src/app/_layout.tsx`: no slot selected, a user-facing error with the store
untouched, or a submission that hands a barcode to `updateSlot` (after
`markAsSoldOut` on the confirmation path) yielding a new store state. -/
inductive SubmitOutcome where
  | noSlot
  | errorMsg (msg : String)
  | submitted (barcode : String) (newState : InventoryState)
deriving DecidableEq, Repr

/-- Embedding of `handleSubmitScan`: extract only numeric characters from
the accumulated raw input, run the length precheck, validate against the
store, and on success (or on a confirmed previous pack) hand the
digit-cleaned barcode to `updateSlot`.  UI concerns (focus, animation,
navigation) are outside the model. -/
def handleSubmitScan (scanInput : String) (selectedSlotId : Option Nat)
    (now : Instant) (st : InventoryState) : SubmitOutcome :=
  match selectedSlotId with
  | none => SubmitOutcome.noSlot
  | some slotId =>
    if slotId == 0 then SubmitOutcome.noSlot
    else
      let numericOnly := cleanDigits scanInput
      if numericOnly.data.isEmpty then
        SubmitOutcome.errorMsg "No numeric data detected in scan"
      else if strLen numericOnly < 14 then
        let n := strLen numericOnly
        SubmitOutcome.errorMsg s!"Barcode too short: {n}/14 digits minimum required"
      else
        let validationResult := validateBarcode numericOnly slotId now st
        if validationResult.isValid then
          SubmitOutcome.submitted numericOnly (updateSlot slotId numericOnly now st)
        else if validationResult.requiresConfirmation &&
            jsTruthyOptStr validationResult.previousGamepack then
          SubmitOutcome.submitted numericOnly
            (updateSlot slotId numericOnly now (markAsSoldOut slotId now st))
        else
          SubmitOutcome.errorMsg (validationResult.message.getD "Invalid barcode")

/-- The four mutating store operations named by the data-model invariant
claims, as one syntactic class. -/
inductive StoreOp where
  | update (id : Nat) (barcode : String)
  | clear (id : Nat)
  | markEmpty (id : Nat)
  | markSoldOut (id : Nat)
deriving DecidableEq, Repr

/-- Apply one store operation to a state at the given instant. -/
def applyOp : StoreOp → Instant → InventoryState → InventoryState
  | StoreOp.update id barcode, now, st => updateSlot id barcode now st
  | StoreOp.clear id, _, st => clearSlot id st
  | StoreOp.markEmpty id, now, st => markAsEmpty id now st
  | StoreOp.markSoldOut id, now, st => markAsSoldOut id now st

/-- The slot id an operation was given. -/
def opTarget : StoreOp → Nat
  | StoreOp.update id _ => id
  | StoreOp.clear id => id
  | StoreOp.markEmpty id => id
  | StoreOp.markSoldOut id => id

/-- The barcode a submit outcome handed to `updateSlot`, when any. -/
def submittedBarcode : SubmitOutcome → Option String
  | SubmitOutcome.submitted b _ => some b
  | _ => none

/-- A sample instant used by concrete test states. -/
def ts0 : Instant := ⟨100, 5⟩

/-- A sample current instant on the same calendar day as `ts0`. -/
def now0 : Instant := ⟨100, 50⟩

/-- A store state with no slots at all. -/
def emptyState : InventoryState := ⟨[], none, []⟩

/-- A slot holding the active gamepack `"12345678901"` scanned today. -/
def rescanSlot : InventorySlot :=
  ⟨2, SlotStatus.scanned, some "12345678901234", some ts0,
    some "12345678901", false⟩

/-- A store whose only slot is `rescanSlot` (slot id 2). -/
def rescanState : InventoryState := ⟨[rescanSlot], none, []⟩

/-- Slot 1 holding active gamepack `"12345678901"` scanned today. -/
def scenarioSlotA : InventorySlot :=
  ⟨1, SlotStatus.scanned, some "12345678901234", some ts0,
    some "12345678901", false⟩

/-- Slot 2, untouched. -/
def scenarioSlotB : InventorySlot :=
  ⟨2, SlotStatus.empty, none, none, none, false⟩

/-- A store where slot 1 holds gamepack `"12345678901"` and slot 2 is
untouched. -/
def scenarioState : InventoryState := ⟨[scenarioSlotA, scenarioSlotB], none, []⟩

/-- A freshly initialised 20-slot store. -/
def freshStore : InventoryState := initSlots emptyState

/-- Slot 3, holding a pack already marked sold out. -/
def soldOutSlot : InventorySlot :=
  ⟨3, SlotStatus.scanned, some "34567890123456", some ts0,
    some "34567890123", true⟩

/-- A store whose only slot is the sold-out `soldOutSlot`. -/
def soldOutState : InventoryState := ⟨[soldOutSlot], none, []⟩

-- ===== THEOREMS =====

/-- The last `n` elements via `reverse` coincide with `drop (length - n)`. -/
theorem reverse_take_reverse_eq_drop (l : List Char) (n : Nat) :
    (l.reverse.take n).reverse = l.drop (l.length - n) := by
  rw [List.take_reverse, List.reverse_reverse]

/-- C3: `extractBarcodeIdentifier` agrees with the reference algorithm on
every input, returns only digit characters, returns at most 14 characters,
and maps the empty string to the empty string. -/
theorem extractBarcodeIdentifier_spec :
    (∀ s : String, (extractBarcodeIdentifier s).data = extractIdentifierRef s) ∧
    (∀ s : String, (extractBarcodeIdentifier s).data.all Char.isDigit = true) ∧
    (∀ s : String, strLen (extractBarcodeIdentifier s) ≤ 14) ∧
    extractBarcodeIdentifier "" = "" := by
  have hdigits : ∀ s : String, ∀ c ∈ (s.data.filter Char.isDigit), c.isDigit = true := by
    intro s c hc
    exact (List.mem_filter.mp hc).2
  have hmain : ∀ s : String, (extractBarcodeIdentifier s).data = extractIdentifierRef s := by
    intro s
    unfold extractBarcodeIdentifier extractIdentifierRef cleanDigits jsTake jsTakeLast strLen
    simp only [reverse_take_reverse_eq_drop]
    split
    · rfl
    · split
      · rfl
      · rfl
  refine ⟨hmain, ?_, ?_, by rfl⟩
  · intro s
    rw [hmain s]
    unfold extractIdentifierRef
    simp only [reverse_take_reverse_eq_drop]
    split
    · refine List.all_eq_true.mpr ?_
      intro c hc
      exact hdigits s c (List.drop_subset _ _ (List.take_subset _ _ hc))
    · split
      · refine List.all_eq_true.mpr ?_
        intro c hc
        exact hdigits s c (List.drop_subset _ _ hc)
      · refine List.all_eq_true.mpr ?_
        intro c hc
        exact hdigits s c hc
  · intro s
    have hlen : strLen (extractBarcodeIdentifier s) = (extractIdentifierRef s).length := by
      unfold strLen
      rw [hmain s]
    rw [hlen]
    unfold extractIdentifierRef
    simp only [reverse_take_reverse_eq_drop]
    split
    · rename_i h
      rw [List.length_take, List.length_drop]
      omega
    · split
      · rename_i h1 h2
        rw [List.length_drop]
        omega
      · rename_i h1 h2
        omega

/-- The 26-digit scan used by the specification's worked example. -/
def workedExampleScan : String := "12345000001234500001299988"

/-- C4 counterexample: on the worked-example scan the extractor does not
return the value `"45000001234500"` claimed by the specification (the
claimed 24-character window is actually 23 characters long). -/
theorem extractBarcodeIdentifier_worked_example_cex :
    extractBarcodeIdentifier workedExampleScan ≠ "45000001234500" := by
  decide

/-- C4 (amended): on the 26-digit input `"12345000001234500001299988"` the
last 24 digits are `"345000001234500001299988"` and the extractor returns
the first 14 of that window, `"34500000123450"`. -/
theorem extractBarcodeIdentifier_worked_example :
    extractBarcodeIdentifier workedExampleScan = "34500000123450" ∧
    jsTakeLast (cleanDigits workedExampleScan) 24 = "345000001234500001299988" := by
  decide

/-- A digit character is not a JavaScript whitespace character. -/
theorem isJsWhitespace_eq_false_of_isDigit (c : Char) (h : c.isDigit = true) :
    isJsWhitespace c = false := by
  cases hw : isJsWhitespace c
  · rfl
  · unfold isJsWhitespace at hw
    simp only [Bool.or_eq_true, beq_iff_eq] at hw
    rcases hw with ((((((rfl | rfl) | rfl) | rfl) | rfl) | rfl) | rfl) | rfl <;>
      exact absurd h (by decide)

/-- Dropping leading whitespace from an all-digit character list is the
identity. -/
theorem dropWhile_ws_of_digits (l : List Char)
    (h : ∀ c ∈ l, c.isDigit = true) :
    l.dropWhile isJsWhitespace = l := by
  cases l with
  | nil => rfl
  | cons a t =>
    have ha : isJsWhitespace a = false :=
      isJsWhitespace_eq_false_of_isDigit a (h a (List.mem_cons_self a t))
    simp [List.dropWhile_cons, ha]

/-- Trimming an all-digit string is the identity. -/
theorem jsTrim_of_digits (s : String) (h : s.data.all Char.isDigit = true) :
    jsTrim s = s := by
  have hmem : ∀ c ∈ s.data, c.isDigit = true := List.all_eq_true.mp h
  have hrev : ∀ c ∈ s.data.reverse, c.isDigit = true := by
    intro c hc
    exact hmem c (List.mem_reverse.mp hc)
  unfold jsTrim
  rw [dropWhile_ws_of_digits s.data hmem, dropWhile_ws_of_digits s.data.reverse hrev,
    List.reverse_reverse]

/-- Under the three format checks (non-empty after trimming, length at
least 14, digits only) `validateBarcode` reduces to the sentinel test, the
previous-pack test and the uniqueness step. -/
theorem validateBarcode_format_ok (barcode : String) (slotId : Nat)
    (now : Instant) (st : InventoryState)
    (hlen : 14 ≤ strLen barcode) (hdig : barcode.data.all Char.isDigit = true) :
    validateBarcode barcode slotId now st =
      (if jsTake barcode 11 = emptyGamepackSentinel then acceptResult
       else
        match getPreviousGamepack slotId st.slots with
        | some previousGamepack =>
          if previousGamepack ≠ "" ∧ previousGamepack ≠ emptyGamepackSentinel ∧
              previousGamepack ≠ jsTake barcode 11 then
            confirmationRequest previousGamepack slotId
          else
            uniquenessStep (jsTake barcode 11) now st
        | none => uniquenessStep (jsTake barcode 11) now st) := by
  have hne : barcode.data ≠ [] := by
    intro h0
    unfold strLen at hlen
    rw [h0] at hlen
    simp at hlen
  have htrim : (jsTrim barcode).data.isEmpty = false := by
    rw [jsTrim_of_digits barcode hdig]
    exact List.isEmpty_eq_false.mpr hne
  have hlt : ¬ (strLen barcode < 14) := by omega
  have hall : allDigitsTest barcode = true := by
    unfold allDigitsTest
    rw [hdig, List.isEmpty_eq_false.mpr hne]
    rfl
  unfold validateBarcode
  rw [htrim, hall]
  simp only [Bool.false_eq_true, if_false, if_neg hlt, Bool.not_true,
    Bool.true_eq_false]

/-- C6 counterexample: the identifier `"00000000000abc"` starts with the
empty-slot sentinel and is 14 characters long, yet `validateBarcode`
rejects it (the digits-only format check fires first), so a non-digit
suffix does not yield Accept. -/
theorem validateBarcode_sentinel_nondigit_cex :
    jsTake "00000000000abc" 11 = emptyGamepackSentinel ∧
    14 ≤ strLen "00000000000abc" ∧
    (validateBarcode "00000000000abc" 1 now0 emptyState).isValid = false := by
  decide

/-- C6 (amended): an identifier built from the empty-slot sentinel and any
digit suffix padding it to at least 14 characters is accepted by
`validateBarcode` for every slot id, clock and store state. -/
theorem validateBarcode_sentinel_accepts (suffix : String) (slotId : Nat)
    (now : Instant) (st : InventoryState)
    (hdig : suffix.data.all Char.isDigit = true)
    (hlen : 14 ≤ strLen (emptyGamepackSentinel ++ suffix)) :
    validateBarcode (emptyGamepackSentinel ++ suffix) slotId now st =
      acceptResult := by
  have hdata : (emptyGamepackSentinel ++ suffix).data =
      emptyGamepackSentinel.data ++ suffix.data := String.data_append _ _
  have halldig : (emptyGamepackSentinel ++ suffix).data.all Char.isDigit = true := by
    rw [hdata, List.all_append, hdig]
    decide
  have htake : jsTake (emptyGamepackSentinel ++ suffix) 11 = emptyGamepackSentinel := by
    unfold jsTake
    rw [hdata, List.take_append_of_le_length (by decide)]
    decide
  rw [validateBarcode_format_ok _ _ _ _ hlen halldig, htake]
  simp

/-- C6 witness: the concrete sentinel identifier `"00000000000999"` is
accepted against the empty store. -/
theorem validateBarcode_sentinel_accepts_witness :
    validateBarcode (emptyGamepackSentinel ++ "999") 1 now0 emptyState =
      acceptResult :=
  validateBarcode_sentinel_accepts "999" 1 now0 emptyState (by decide) (by decide)

/-- When the slot is found and carries a truthy, non-sentinel gamepack and
a truthy barcode, `getPreviousGamepack` returns that gamepack. -/
theorem getPreviousGamepack_eq_some (slotId : Nat) (slots : List InventorySlot)
    (slot : InventorySlot) (b g : String)
    (hfind : slots.find? (fun s => s.id == slotId) = some slot)
    (hbar : slot.barcode = some b) (hbne : b ≠ "")
    (hgp : slot.gamepackNumber = some g)
    (hgsent : g ≠ emptyGamepackSentinel) (hgne : g ≠ "") :
    getPreviousGamepack slotId slots = some g := by
  unfold getPreviousGamepack
  rw [hfind]
  dsimp only
  rw [hbar]
  dsimp only
  rw [if_neg hbne, hgp]
  rw [if_neg (show ¬ (some g = some emptyGamepackSentinel) by
    simp only [Option.some.injEq]
    exact hgsent)]
  dsimp only
  rw [if_neg hgne]

/-- C5: whenever the scanned identifier passes the format checks, its
gamepack is not the sentinel, and the target slot currently holds a
non-sentinel gamepack `G1` (with a non-null barcode) different from the new
gamepack, `validateBarcode` returns the confirmation request carrying
`previousGamepack = G1` and the prompt naming `G1` and the slot.  The
function is pure: it returns a result record and the state is not part of
its output. -/
theorem validateBarcode_requires_confirmation (barcode : String) (slotId : Nat)
    (now : Instant) (st : InventoryState) (slot : InventorySlot) (b G1 : String)
    (hlen : 14 ≤ strLen barcode)
    (hdig : barcode.data.all Char.isDigit = true)
    (hsent : jsTake barcode 11 ≠ emptyGamepackSentinel)
    (hfind : st.slots.find? (fun s => s.id == slotId) = some slot)
    (hbar : slot.barcode = some b) (hbne : b ≠ "")
    (hgp : slot.gamepackNumber = some G1)
    (hG1sent : G1 ≠ emptyGamepackSentinel) (hG1ne : G1 ≠ "")
    (hdiff : G1 ≠ jsTake barcode 11) :
    validateBarcode barcode slotId now st = confirmationRequest G1 slotId := by
  rw [validateBarcode_format_ok _ _ _ _ hlen hdig]
  rw [if_neg hsent]
  rw [getPreviousGamepack_eq_some slotId st.slots slot b G1 hfind hbar hbne hgp
    hG1sent hG1ne]
  dsimp only
  rw [if_pos ⟨hG1ne, hG1sent, hdiff⟩]

/-- C5 witness: scanning `"22345678901234"` (gamepack `"22345678901"`) onto
slot 2, which holds gamepack `"12345678901"`, yields the confirmation
request with the human-readable prompt. -/
theorem validateBarcode_requires_confirmation_witness :
    validateBarcode "22345678901234" 2 now0 rescanState =
      ⟨false, some "Was the previous pack (12345678901) in Slot 2 completely sold out?",
        true, some "12345678901"⟩ := by
  have h := validateBarcode_requires_confirmation "22345678901234" 2 now0
    rescanState rescanSlot "12345678901234" "12345678901" (by decide) (by decide)
    (by decide) (by decide) (by decide) (by decide) (by decide) (by decide)
    (by decide) (by decide)
  rw [h]
  decide

/-- The accept result is not a duplicate rejection. -/
theorem acceptResult_ne_duplicateReject (gp : String) :
    acceptResult ≠ duplicateReject gp := by
  intro h
  have := congrArg ValidationResult.isValid h
  simp [acceptResult, duplicateReject] at this

/-- The per-slot activity test unfolded to claim-level conditions. -/
theorem activeGamepackToday_iff (gp : String) (now : Instant)
    (s : InventorySlot) :
    activeGamepackToday gp now s = true ↔
      s.gamepackNumber = some gp ∧ s.soldOut = false ∧
        ∃ t, s.timestamp = some t ∧ sameDay t now = true := by
  unfold activeGamepackToday
  cases hts : s.timestamp with
  | none => simp [hts]
  | some t =>
    cases hgp : s.gamepackNumber with
    | none => simp [hts, hgp]
    | some g =>
      by_cases hg : g = gp
      · subst hg
        simp only [hts, hgp, Bool.and_eq_true, ne_eq, not_true_eq_false,
          if_false, Option.some.injEq, Bool.not_eq_true', true_and,
          exists_eq_left']
        exact and_comm
      · simp [hts, hgp, hg]

/-- A sold-out slot never passes the activity test. -/
theorem activeGamepackToday_of_soldOut (gp : String) (now : Instant)
    (s : InventorySlot) (h : s.soldOut = true) :
    activeGamepackToday gp now s = false := by
  unfold activeGamepackToday
  cases hts : s.timestamp with
  | none => rfl
  | some t =>
    cases hgp : s.gamepackNumber with
    | none => rfl
    | some g =>
      by_cases hg : g = gp
      · subst hg
        simp [h]
      · simp [hg]

/-- For a non-sentinel gamepack, the uniqueness step rejects exactly when
some slot carries that gamepack actively today, and accepts otherwise. -/
theorem uniquenessStep_cases (gp : String) (now : Instant)
    (st : InventoryState) (hsent : gp ≠ emptyGamepackSentinel) :
    (uniquenessStep gp now st = duplicateReject gp ↔
      ∃ s ∈ st.slots, activeGamepackToday gp now s = true) ∧
    ((∀ s ∈ st.slots, activeGamepackToday gp now s = false) →
      uniquenessStep gp now st = acceptResult) := by
  unfold uniquenessStep checkGamepackUniqueness
  rw [if_neg hsent]
  cases hany : st.slots.any (activeGamepackToday gp now) with
  | false =>
    constructor
    · simp only [Bool.not_false, Bool.not_true, Bool.false_eq_true, if_false]
      constructor
      · intro h
        exact absurd h (acceptResult_ne_duplicateReject gp)
      · intro ⟨s, hs, hact⟩
        have := (List.any_eq_false.mp hany) s hs
        exact absurd hact this
    · intro _
      simp
  | true =>
    constructor
    · simp only [Bool.not_true, Bool.not_false, if_true]
      constructor
      · intro _
        exact List.any_eq_true.mp hany
      · intro _
        trivial
    · intro hall
      rcases List.any_eq_true.mp hany with ⟨s, hs, hact⟩
      exact absurd hact (by rw [hall s hs]; simp)

/-- Under the format checks, a non-sentinel gamepack and a previous
gamepack that is absent or equal to the new one, `validateBarcode` is the
uniqueness step. -/
theorem validateBarcode_eq_uniquenessStep (barcode : String) (slotId : Nat)
    (now : Instant) (st : InventoryState)
    (hlen : 14 ≤ strLen barcode)
    (hdig : barcode.data.all Char.isDigit = true)
    (hsent : jsTake barcode 11 ≠ emptyGamepackSentinel)
    (hprev : getPreviousGamepack slotId st.slots = none ∨
      getPreviousGamepack slotId st.slots = some (jsTake barcode 11)) :
    validateBarcode barcode slotId now st =
      uniquenessStep (jsTake barcode 11) now st := by
  rw [validateBarcode_format_ok _ _ _ _ hlen hdig, if_neg hsent]
  rcases hprev with h | h
  · rw [h]
  · rw [h]
    dsimp only
    rw [if_neg (by
      intro hc
      exact hc.2.2 rfl)]

/-- Flagging a slot as sold out does not change its id. -/
theorem markSoldOutFlag_id (A : Nat) (s : InventorySlot) :
    (markSoldOutFlag A s).id = s.id := by
  unfold markSoldOutFlag
  split <;> rfl

/-- Flagging a slot as sold out does not change its barcode. -/
theorem markSoldOutFlag_barcode (A : Nat) (s : InventorySlot) :
    (markSoldOutFlag A s).barcode = s.barcode := by
  unfold markSoldOutFlag
  split <;> rfl

/-- Flagging a slot as sold out does not change its gamepack number. -/
theorem markSoldOutFlag_gamepackNumber (A : Nat) (s : InventorySlot) :
    (markSoldOutFlag A s).gamepackNumber = s.gamepackNumber := by
  unfold markSoldOutFlag
  split <;> rfl

/-- Finding a slot by id commutes with the sold-out flagging map. -/
theorem find?_map_markSoldOutFlag (A B : Nat) (l : List InventorySlot) :
    (l.map (markSoldOutFlag A)).find? (fun s => s.id == B) =
      Option.map (markSoldOutFlag A) (l.find? (fun s => s.id == B)) := by
  rw [List.find?_map]
  have hcomp : ((fun s : InventorySlot => s.id == B) ∘ markSoldOutFlag A) =
      fun s : InventorySlot => s.id == B := by
    funext s
    simp [Function.comp, markSoldOutFlag_id]
  rw [hcomp]

/-- The previous-gamepack query is unchanged by the sold-out flagging map. -/
theorem getPreviousGamepack_map_markSoldOutFlag (B A : Nat)
    (l : List InventorySlot) :
    getPreviousGamepack B (l.map (markSoldOutFlag A)) =
      getPreviousGamepack B l := by
  unfold getPreviousGamepack
  rw [find?_map_markSoldOutFlag]
  cases h : l.find? (fun s => s.id == B) with
  | none => rfl
  | some s =>
    dsimp only [Option.map]
    rw [markSoldOutFlag_barcode, markSoldOutFlag_gamepackNumber]

/-- When the found slot carries a truthy non-sentinel gamepack,
`markAsSoldOut` flags the matching slots and appends the ledger record. -/
theorem markAsSoldOut_eq (A : Nat) (now : Instant) (st : InventoryState)
    (sA : InventorySlot) (G : String)
    (hfind : st.slots.find? (fun s => s.id == A) = some sA)
    (hgp : sA.gamepackNumber = some G)
    (hne : G ≠ "") (hsent : G ≠ emptyGamepackSentinel) :
    markAsSoldOut A now st =
      { st with
        slots := st.slots.map (markSoldOutFlag A)
        soldOutPacks := st.soldOutPacks ++ [newSoldOutPack G now A] } := by
  unfold markAsSoldOut
  rw [hfind]
  dsimp only
  rw [hgp]
  dsimp only
  rw [if_pos ⟨hne, hsent⟩]

/-- After flagging every id-`A` slot as sold out, no slot is active for
gamepack `gp` today, provided only id-`A` slots were active before. -/
theorem no_active_after_markSoldOutFlag (gp : String) (now : Instant)
    (A : Nat) (l : List InventorySlot)
    (huniq : ∀ s ∈ l, activeGamepackToday gp now s = true → s.id = A) :
    ∀ s ∈ l.map (markSoldOutFlag A), activeGamepackToday gp now s = false := by
  intro s' hs'
  rcases List.mem_map.mp hs' with ⟨s, hs, rfl⟩
  cases hA : s.id == A with
  | true =>
    have : markSoldOutFlag A s = { s with soldOut := true } := by
      unfold markSoldOutFlag
      rw [hA]
      rfl
    rw [this]
    exact activeGamepackToday_of_soldOut gp now _ rfl
  | false =>
    have hflag : markSoldOutFlag A s = s := by
      unfold markSoldOutFlag
      rw [hA]
      rfl
    rw [hflag]
    cases hact : activeGamepackToday gp now s with
    | false => rfl
    | true =>
      have := huniq s hs hact
      rw [this] at hA
      simp at hA

/-- The first 11 characters of a string of length at least 14 form a
non-empty string. -/
theorem jsTake11_ne_empty (barcode : String) (hlen : 14 ≤ strLen barcode) :
    jsTake barcode 11 ≠ "" := by
  intro h
  have hd := congrArg String.data h
  have hz : (List.take 11 barcode.data).length = 0 := by
    rw [show (jsTake barcode 11).data = List.take 11 barcode.data from rfl] at hd
    rw [hd]
    rfl
  rw [List.length_take] at hz
  unfold strLen at hlen
  omega

/-- C1 (amended): with the format checks passed, a non-sentinel gamepack
and a previous gamepack that is absent or equal to the new one, the
validator rejects with the duplicate-gamepack message exactly when some
slot — the target slot included — holds that gamepack with a timestamp
from today and `soldOut` false.  In particular, when the slot with id `A`
holds the gamepack actively today, `B`'s previous gamepack is absent and
`B ≠ A`, validation on `B` rejects; and once only-id-`A` slots were active,
the same call accepts after `markAsSoldOut(A)`. -/
theorem validateBarcode_uniqueness_characterization :
    (∀ (barcode : String) (slotId : Nat) (now : Instant) (st : InventoryState),
      14 ≤ strLen barcode →
      barcode.data.all Char.isDigit = true →
      jsTake barcode 11 ≠ emptyGamepackSentinel →
      (getPreviousGamepack slotId st.slots = none ∨
        getPreviousGamepack slotId st.slots = some (jsTake barcode 11)) →
      (validateBarcode barcode slotId now st =
          duplicateReject (jsTake barcode 11) ↔
        ∃ s ∈ st.slots, s.gamepackNumber = some (jsTake barcode 11) ∧
          s.soldOut = false ∧ ∃ t, s.timestamp = some t ∧ sameDay t now = true)) ∧
    (∀ (barcode : String) (slotA slotB : Nat) (now : Instant)
        (st : InventoryState) (sA : InventorySlot) (tA : Instant),
      14 ≤ strLen barcode →
      barcode.data.all Char.isDigit = true →
      jsTake barcode 11 ≠ emptyGamepackSentinel →
      st.slots.find? (fun s => s.id == slotA) = some sA →
      sA.gamepackNumber = some (jsTake barcode 11) →
      sA.soldOut = false →
      sA.timestamp = some tA →
      sameDay tA now = true →
      slotB ≠ slotA →
      getPreviousGamepack slotB st.slots = none →
      (validateBarcode barcode slotB now st =
          duplicateReject (jsTake barcode 11)) ∧
      ((∀ s ∈ st.slots, activeGamepackToday (jsTake barcode 11) now s = true →
          s.id = slotA) →
        validateBarcode barcode slotB now (markAsSoldOut slotA now st) =
          acceptResult)) := by
  constructor
  · intro barcode slotId now st hlen hdig hsent hprev
    rw [validateBarcode_eq_uniquenessStep barcode slotId now st hlen hdig hsent hprev]
    rw [(uniquenessStep_cases (jsTake barcode 11) now st hsent).1]
    constructor
    · intro ⟨s, hs, hact⟩
      exact ⟨s, hs, (activeGamepackToday_iff _ now s).mp hact⟩
    · intro ⟨s, hs, hcond⟩
      exact ⟨s, hs, (activeGamepackToday_iff _ now s).mpr hcond⟩
  · intro barcode slotA slotB now st sA tA hlen hdig hsent hfind hgp hsold hts
      hday hBA hprevB
    constructor
    · rw [validateBarcode_eq_uniquenessStep barcode slotB now st hlen hdig hsent
        (Or.inl hprevB)]
      rw [(uniquenessStep_cases (jsTake barcode 11) now st hsent).1]
      refine ⟨sA, List.mem_of_find?_eq_some hfind, ?_⟩
      exact (activeGamepackToday_iff _ now sA).mpr ⟨hgp, hsold, tA, hts, hday⟩
    · intro huniq
      have hGne : jsTake barcode 11 ≠ "" := jsTake11_ne_empty barcode hlen
      rw [markAsSoldOut_eq slotA now st sA (jsTake barcode 11) hfind hgp hGne hsent]
      have hprevB2 : getPreviousGamepack slotB
          (st.slots.map (markSoldOutFlag slotA)) = none := by
        rw [getPreviousGamepack_map_markSoldOutFlag]
        exact hprevB
      rw [validateBarcode_eq_uniquenessStep barcode slotB now _ hlen hdig hsent
        (Or.inl hprevB2)]
      exact (uniquenessStep_cases (jsTake barcode 11) now _ hsent).2
        (no_active_after_markSoldOutFlag _ now slotA st.slots huniq)

/-- C1 counterexample: rescanning the pack `"12345678901"` onto slot 2,
which itself holds that pack actively today and is the only slot in the
store, satisfies the claim's precondition (previous gamepack equal to the
new one) yet is rejected with the duplicate-gamepack message although no
slot other than the target holds the pack. -/
theorem validateBarcode_rejects_rescan_same_slot_cex :
    getPreviousGamepack 2 rescanState.slots = some (jsTake "12345678901234" 11) ∧
    validateBarcode "12345678901234" 2 now0 rescanState =
      duplicateReject "12345678901" ∧
    rescanState.slots.filter (fun s => !(s.id == 2)) = [] := by
  decide

/-- C1 witness: in the two-slot store where slot 1 holds `"12345678901"`
actively today and slot 2 is untouched, scanning that pack onto slot 2 is
rejected, and accepted after `markAsSoldOut(1)`. -/
theorem validateBarcode_uniqueness_characterization_witness :
    validateBarcode "12345678901234" 2 now0 scenarioState =
      duplicateReject "12345678901" ∧
    validateBarcode "12345678901234" 2 now0 (markAsSoldOut 1 now0 scenarioState) =
      acceptResult := by
  have h2 := validateBarcode_uniqueness_characterization.2 "12345678901234" 1 2
    now0 scenarioState scenarioSlotA ts0 (by decide) (by decide) (by decide)
    (by decide) (by decide) (by decide) (by decide) (by decide) (by decide)
    (by decide)
  refine ⟨?_, h2.2 (by decide)⟩
  have h1 := h2.1
  rw [h1]
  decide

/-- C2 counterexample: flushing the buffered 26-digit worked-example scan
against a fresh store hands the full digit-cleaned buffer to `updateSlot`,
which differs from the canonical extraction of that buffer. -/
theorem handleSubmitScan_not_extractor_cex :
    submittedBarcode (handleSubmitScan workedExampleScan (some 1) now0 freshStore) =
      some workedExampleScan ∧
    extractBarcodeIdentifier workedExampleScan ≠ workedExampleScan := by
  decide

/-- C2 (amended): whenever a flush submits, the identifier handed to
validation and to `updateSlot` is exactly the digit-cleaned accumulated
buffer — all non-digit characters removed, with no 24-to-14 extraction
applied. -/
theorem handleSubmitScan_submits_cleaned_buffer (scanInput : String)
    (sel : Option Nat) (now : Instant) (st : InventoryState)
    (b : String) (st1 : InventoryState)
    (h : handleSubmitScan scanInput sel now st = SubmitOutcome.submitted b st1) :
    b = cleanDigits scanInput := by
  cases sel with
  | none =>
    simp only [handleSubmitScan] at h
    exact SubmitOutcome.noConfusion h
  | some slotId =>
    simp only [handleSubmitScan] at h
    split at h
    · exact SubmitOutcome.noConfusion h
    · split at h
      · exact SubmitOutcome.noConfusion h
      · split at h
        · exact SubmitOutcome.noConfusion h
        · split at h
          · injection h with hb hst
            exact hb.symm
          · split at h
            · injection h with hb hst
              exact hb.symm
            · exact SubmitOutcome.noConfusion h

/-- C2 witness: flushing the raw buffer `" 12345678901234\n"` (a space, 14
digits and a terminator) against the empty store submits the digit-cleaned
identifier `"12345678901234"`. -/
theorem handleSubmitScan_submits_cleaned_buffer_witness :
    "12345678901234" = cleanDigits " 12345678901234\n" :=
  handleSubmitScan_submits_cleaned_buffer " 12345678901234\n" (some 1) now0
    emptyState "12345678901234" (updateSlot 1 "12345678901234" now0 emptyState)
    (by decide)

/-- C7: `markAsSoldOut` is a silent no-op (the entire state unchanged, and
the function is total so no exception arises) when no slot has the given
id, or when the found slot's gamepack number is absent, empty or the
sentinel; otherwise it flags exactly the matching slot as sold out and
appends exactly one ledger record whose game name, price and type come
from the catalog keyed by the gamepack's first 5 digits, the catalog
falling back to the `"Unknown Game"`/`"N/A"` entry when the key is
missing. -/
theorem markAsSoldOut_spec (id : Nat) (now : Instant) (st : InventoryState) :
    ((∀ s ∈ st.slots, s.id ≠ id) → markAsSoldOut id now st = st) ∧
    (∀ slot, st.slots.find? (fun s => s.id == id) = some slot →
      (slot.gamepackNumber = none ∨ slot.gamepackNumber = some "" ∨
        slot.gamepackNumber = some emptyGamepackSentinel) →
      markAsSoldOut id now st = st) ∧
    (∀ slot g, st.slots.find? (fun s => s.id == id) = some slot →
      slot.gamepackNumber = some g → g ≠ "" → g ≠ emptyGamepackSentinel →
      (markAsSoldOut id now st).soldOutPacks =
        st.soldOutPacks ++ [⟨g ++ "-" ++ instantToString now, g,
          (getGameInfo g).name, (getGameInfo g).price, (getGameInfo g).type,
          now, id⟩] ∧
      (markAsSoldOut id now st).slots =
        st.slots.map (fun s =>
          if s.id == id then { s with soldOut := true } else s) ∧
      (markAsSoldOut id now st).selectedSlot = st.selectedSlot) ∧
    (∀ g, gameData.find? (fun e => e.1 == jsTake g 5) = none →
      getGameInfo g = defaultGameInfo) := by
  refine ⟨?_, ?_, ?_, ?_⟩
  · intro hnone
    have hfind : st.slots.find? (fun s => s.id == id) = none := by
      refine List.find?_eq_none.mpr ?_
      intro s hs
      simp only [beq_iff_eq]
      exact hnone s hs
    unfold markAsSoldOut
    rw [hfind]
  · intro slot hfind hbad
    unfold markAsSoldOut
    rw [hfind]
    dsimp only
    rcases hbad with h | h | h
    · rw [h]
    · rw [h]
      dsimp only
      rw [if_neg (fun hc => hc.1 rfl)]
    · rw [h]
      dsimp only
      rw [if_neg (fun hc => hc.2 rfl)]
  · intro slot g hfind hgp hne hsent
    rw [markAsSoldOut_eq id now st slot g hfind hgp hne hsent]
    exact ⟨rfl, rfl, rfl⟩
  · intro g hmiss
    simp only [getGameInfo, hmiss]

/-- C7 witness: on the empty store `markAsSoldOut(5)` is a no-op; in the
store whose slot 2 holds gamepack `"12345678901"` it appends exactly the
catalog-resolved ledger record. -/
theorem markAsSoldOut_spec_witness :
    markAsSoldOut 5 now0 emptyState = emptyState ∧
    (markAsSoldOut 2 now0 rescanState).soldOutPacks =
      [⟨"12345678901-100T50", "12345678901", "Lucky 7s", "$5", "Scratch-off",
        now0, 2⟩] := by
  constructor
  · exact (markAsSoldOut_spec 5 now0 emptyState).1 (by decide)
  · have h := ((markAsSoldOut_spec 2 now0 rescanState).2.2.1 rescanSlot
      "12345678901" (by decide) (by decide) (by decide) (by decide)).1
    rw [h]
    decide

/-- The first element satisfying a predicate is the head of the filtered
list. -/
theorem find?_eq_head_filter {α : Type} (p : α → Bool) (l : List α) :
    l.find? p = (l.filter p).head? := by
  induction l with
  | nil => rfl
  | cons a t ih =>
    cases hp : p a with
    | true =>
      rw [List.find?_cons_of_pos _ hp, List.filter_cons, if_pos hp]
      rfl
    | false =>
      rw [List.find?_cons_of_neg _ (by simp [hp]), List.filter_cons,
        if_neg (by simp [hp]), ih]

/-- C8: `findNextAvailableSlot` realizes the specification's strict
priority — the first pending slot, else the first untouched slot (null
barcode and empty status), else the first non-scanned slot, else slot 1 —
and in particular returns 1 when every slot is scanned. -/
theorem findNextAvailableSlot_spec (slots : List InventorySlot) :
    findNextAvailableSlot slots = nextSlotRef slots ∧
    ((∀ s ∈ slots, s.status = SlotStatus.scanned) →
      findNextAvailableSlot slots = 1) := by
  constructor
  · unfold findNextAvailableSlot nextSlotRef
    rw [find?_eq_head_filter, find?_eq_head_filter, find?_eq_head_filter]
  · intro hall
    unfold findNextAvailableSlot
    have h1 : slots.find?
        (fun slot => decide (slot.status = SlotStatus.pending)) = none := by
      refine List.find?_eq_none.mpr ?_
      intro s hs
      simp [hall s hs]
    have h2 : slots.find? (fun slot =>
        decide (slot.barcode = none ∧ slot.status = SlotStatus.empty)) = none := by
      refine List.find?_eq_none.mpr ?_
      intro s hs
      simp [hall s hs]
    have h3 : slots.find?
        (fun slot => decide (slot.status ≠ SlotStatus.scanned)) = none := by
      refine List.find?_eq_none.mpr ?_
      intro s hs
      simp [hall s hs]
    rw [h1]
    dsimp only
    rw [h2]
    dsimp only
    rw [h3]

/-- C8 witness: on a one-slot collection whose slot is scanned, the
navigator falls through to slot 1. -/
theorem findNextAvailableSlot_spec_witness :
    findNextAvailableSlot [scenarioSlotA] = 1 :=
  (findNextAvailableSlot_spec [scenarioSlotA]).2 (by decide)

/-- Mapping an id-preserving function over the slots preserves the id
sequence. -/
theorem map_slots_ids (f : InventorySlot → InventorySlot)
    (hid : ∀ s, (f s).id = s.id) (l : List InventorySlot) :
    (l.map f).map (fun s => s.id) = l.map (fun s => s.id) := by
  rw [List.map_map]
  exact List.map_congr_left (fun s _ => hid s)

/-- Mapping a function that fixes every slot whose id is not the target
leaves those positions unchanged. -/
theorem map_slots_frame (f : InventorySlot → InventorySlot) (A : Nat)
    (hoff : ∀ s, s.id ≠ A → f s = s) (l : List InventorySlot)
    (i : Nat) (s : InventorySlot) (hi : l[i]? = some s) (hne : s.id ≠ A) :
    (l.map f)[i]? = some s := by
  rw [List.getElem?_map, hi]
  dsimp only [Option.map]
  rw [hoff s hne]

/-- An off-target slot is unchanged by the sold-out flagging. -/
theorem markSoldOutFlag_of_ne (A : Nat) (s : InventorySlot) (h : s.id ≠ A) :
    markSoldOutFlag A s = s := by
  unfold markSoldOutFlag
  rw [if_neg (by simp [h])]

/-- `markAsSoldOut` either leaves the slot list unchanged or maps the
sold-out flagging over it. -/
theorem markAsSoldOut_slots_cases (id : Nat) (now : Instant)
    (st : InventoryState) :
    (markAsSoldOut id now st).slots = st.slots ∨
    (markAsSoldOut id now st).slots = st.slots.map (markSoldOutFlag id) := by
  unfold markAsSoldOut
  cases h1 : st.slots.find? (fun s => s.id == id) with
  | none => exact Or.inl rfl
  | some slot =>
    dsimp only
    cases h2 : slot.gamepackNumber with
    | none => exact Or.inl rfl
    | some g =>
      dsimp only
      split
      · exact Or.inr rfl
      · exact Or.inl rfl

/-- C9: `initSlots` produces 20 slots with ids 1..20 in order, all empty
with null fields and `soldOut` false; and every store operation preserves
the id sequence (hence the length and order) of the slot collection and
leaves every slot whose id is not the operation's target unchanged at its
position.  Slots are never created, deleted or reordered. -/
theorem storeOps_preserve_slots :
    (∀ st : InventoryState, (initSlots st).slots.length = 20 ∧
      ∀ i, i < 20 → (initSlots st).slots[i]? =
        some ⟨i + 1, SlotStatus.empty, none, none, none, false⟩) ∧
    (∀ (op : StoreOp) (now : Instant) (st : InventoryState),
      (applyOp op now st).slots.map (fun s => s.id) =
        st.slots.map (fun s => s.id)) ∧
    (∀ (op : StoreOp) (now : Instant) (st : InventoryState),
      (applyOp op now st).slots.length = st.slots.length) ∧
    (∀ (op : StoreOp) (now : Instant) (st : InventoryState) (i : Nat)
        (s : InventorySlot),
      st.slots[i]? = some s → s.id ≠ opTarget op →
      (applyOp op now st).slots[i]? = some s) := by
  have hids : ∀ (op : StoreOp) (now : Instant) (st : InventoryState),
      (applyOp op now st).slots.map (fun s => s.id) =
        st.slots.map (fun s => s.id) := by
    intro op now st
    cases op with
    | update id barcode =>
      refine map_slots_ids _ (fun s => ?_) st.slots
      dsimp only
      split <;> rfl
    | clear id =>
      refine map_slots_ids _ (fun s => ?_) st.slots
      dsimp only
      split <;> rfl
    | markEmpty id =>
      refine map_slots_ids _ (fun s => ?_) st.slots
      dsimp only
      split <;> rfl
    | markSoldOut id =>
      rcases markAsSoldOut_slots_cases id now st with h | h
      · rw [show (applyOp (StoreOp.markSoldOut id) now st) =
          markAsSoldOut id now st from rfl, h]
      · rw [show (applyOp (StoreOp.markSoldOut id) now st) =
          markAsSoldOut id now st from rfl, h]
        exact map_slots_ids _ (markSoldOutFlag_id id) st.slots
  refine ⟨?_, hids, ?_, ?_⟩
  · intro st
    constructor
    · simp [initSlots]
    · intro i hi
      unfold initSlots
      dsimp only
      rw [List.getElem?_map, List.getElem?_range hi]
      rfl
  · intro op now st
    have := congrArg List.length (hids op now st)
    simpa using this
  · intro op now st i s hi hne
    cases op with
    | update id barcode =>
      refine map_slots_frame _ id (fun x hx => ?_) st.slots i s hi hne
      dsimp only
      rw [if_neg (by simp [hx])]
    | clear id =>
      refine map_slots_frame _ id (fun x hx => ?_) st.slots i s hi hne
      dsimp only
      rw [if_neg (by simp [hx])]
    | markEmpty id =>
      refine map_slots_frame _ id (fun x hx => ?_) st.slots i s hi hne
      dsimp only
      rw [if_neg (by simp [hx])]
    | markSoldOut id =>
      rcases markAsSoldOut_slots_cases id now st with h | h
      · rw [show (applyOp (StoreOp.markSoldOut id) now st) =
          markAsSoldOut id now st from rfl, h]
        exact hi
      · rw [show (applyOp (StoreOp.markSoldOut id) now st) =
          markAsSoldOut id now st from rfl, h]
        exact map_slots_frame _ id (markSoldOutFlag_of_ne id) st.slots i s hi hne

/-- C9 witness: the first initialised slot is slot 1 in its pristine state,
and marking slot 1 empty leaves slot 2 untouched at its position. -/
theorem storeOps_preserve_slots_witness :
    (initSlots emptyState).slots[0]? =
      some ⟨1, SlotStatus.empty, none, none, none, false⟩ ∧
    (applyOp (StoreOp.markEmpty 1) now0 scenarioState).slots[1]? =
      some scenarioSlotB := by
  constructor
  · exact (storeOps_preserve_slots.1 emptyState).2 0 (by decide)
  · exact storeOps_preserve_slots.2.2.2 (StoreOp.markEmpty 1) now0 scenarioState
      1 scenarioSlotB (by decide) (by decide)

/-- C10: `markAsEmpty` leaves the ledger, the selected slot and the slot
count unchanged; it rewrites only the matching slot's status, barcode,
gamepack number and timestamp (to empty, the sentinels and the current
instant), inheriting every other field — in particular `soldOut` is
preserved for every slot, so a slot already marked sold out still reports
`soldOut = true` after being marked empty. -/
theorem markAsEmpty_frame (id : Nat) (now : Instant) (st : InventoryState) :
    (markAsEmpty id now st).soldOutPacks = st.soldOutPacks ∧
    (markAsEmpty id now st).selectedSlot = st.selectedSlot ∧
    (markAsEmpty id now st).slots.length = st.slots.length ∧
    (∀ (i : Nat) (s : InventorySlot), st.slots[i]? = some s →
      (markAsEmpty id now st).slots[i]? =
        some (if s.id = id then
          { s with
            status := SlotStatus.empty
            barcode := some emptyBarcodeSentinel
            gamepackNumber := some emptyGamepackSentinel
            timestamp := some now }
        else s)) ∧
    (∀ (i : Nat) (s : InventorySlot), st.slots[i]? = some s →
      ((markAsEmpty id now st).slots[i]?.map (fun x => x.soldOut)) =
        some s.soldOut) := by
  have hframe : ∀ (i : Nat) (s : InventorySlot), st.slots[i]? = some s →
      (markAsEmpty id now st).slots[i]? =
        some (if s.id = id then
          { s with
            status := SlotStatus.empty
            barcode := some emptyBarcodeSentinel
            gamepackNumber := some emptyGamepackSentinel
            timestamp := some now }
        else s) := by
    intro i s hi
    unfold markAsEmpty
    dsimp only
    rw [List.getElem?_map, hi]
    dsimp only [Option.map]
    by_cases h : s.id = id
    · rw [if_pos (by simp [h]), if_pos h]
    · rw [if_neg (by simp [h]), if_neg h]
  refine ⟨rfl, rfl, by simp [markAsEmpty], hframe, ?_⟩
  intro i s hi
  rw [hframe i s hi]
  dsimp only [Option.map]
  by_cases h : s.id = id
  · rw [if_pos h]
  · rw [if_neg h]

/-- C10 witness: marking the sold-out slot 3 empty writes the sentinels
and the fresh timestamp but keeps `soldOut = true`. -/
theorem markAsEmpty_frame_witness :
    (markAsEmpty 3 now0 soldOutState).slots[0]? =
      some ⟨3, SlotStatus.empty, some emptyBarcodeSentinel, some now0,
        some emptyGamepackSentinel, true⟩ := by
  have h := (markAsEmpty_frame 3 now0 soldOutState).2.2.2.1 0 soldOutSlot
    (by decide)
  rw [h]
  decide
